import Mathlib

/-!
Verification of the public interface of gsub_es.h (ARToolKit5 graphics
subroutines for OpenGL ES 1.1, Emscripten port).

The repository source is a single C header consisting of declarations only.
We shallowly embed its declaration surface: C types as an inductive, each
function declaration as a record of its name, parameter list and return
type, and the file itself as a list of top-level items.  Behavioural claims
about functions whose implementation is not part of the repository excerpt
are settled against models built from the header's own documentation
comments (marked `Modelled from the spec:`).
-/

namespace GsubEs

/-- C types as they are spelled in gsub_es.h.  Atoms cover every base type
the header uses; `ptr`/`constPtr` build pointer types; `structType` names a
struct; `boundedInt` is the kind of statically range-restricted integer
type a header could use to rule out bad inputs at compile time (gsub_es.h
never uses it, which is what claim C4 is about). -/
inductive CType where
  | void
  | charTy
  | int
  | float
  | ushort
  | uchar
  | glboolean
  | glubyte
  | arPixelFormat
  | arUint8
  | arParam
  | structType (name : String)
  | ptr (t : CType)
  | constPtr (t : CType)
  | boundedInt (lo hi : Int)
deriving DecidableEq, Repr

/-- The opaque handle type: `typedef struct _ARGL_CONTEXT_SETTINGS *ARGL_CONTEXT_SETTINGS_REF;` -/
def ARGL_CONTEXT_SETTINGS_REF : CType :=
  CType.ptr (CType.structType "_ARGL_CONTEXT_SETTINGS")

/-- A C function declaration: name, parameters (name and type) and return type. -/
structure CFunDecl where
  name : String
  params : List (String × CType)
  ret : CType
deriving DecidableEq, Repr

namespace Decls

/-- `ARGL_CONTEXT_SETTINGS_REF arglSetupForCurrentContext(ARParam *cparam, AR_PIXEL_FORMAT pixelFormat);` -/
def arglSetupForCurrentContext : CFunDecl :=
  { name := "arglSetupForCurrentContext"
    params := [("cparam", CType.ptr CType.arParam), ("pixelFormat", CType.arPixelFormat)]
    ret := ARGL_CONTEXT_SETTINGS_REF }

/-- `void arglCleanup(ARGL_CONTEXT_SETTINGS_REF contextSettings);` -/
def arglCleanup : CFunDecl :=
  { name := "arglCleanup"
    params := [("contextSettings", ARGL_CONTEXT_SETTINGS_REF)]
    ret := CType.void }

/-- `void arglDispImage(ARGL_CONTEXT_SETTINGS_REF contextSettings);` -/
def arglDispImage : CFunDecl :=
  { name := "arglDispImage"
    params := [("contextSettings", ARGL_CONTEXT_SETTINGS_REF)]
    ret := CType.void }

/-- `void arglDispImageStateful(ARGL_CONTEXT_SETTINGS_REF contextSettings);` -/
def arglDispImageStateful : CFunDecl :=
  { name := "arglDispImageStateful"
    params := [("contextSettings", ARGL_CONTEXT_SETTINGS_REF)]
    ret := CType.void }

/-- `char arglDistortionCompensationSet(ARGL_CONTEXT_SETTINGS_REF contextSettings, char enable);` -/
def arglDistortionCompensationSet : CFunDecl :=
  { name := "arglDistortionCompensationSet"
    params := [("contextSettings", ARGL_CONTEXT_SETTINGS_REF), ("enable", CType.charTy)]
    ret := CType.charTy }

/-- `char arglDistortionCompensationGet(ARGL_CONTEXT_SETTINGS_REF contextSettings, char *enable);` -/
def arglDistortionCompensationGet : CFunDecl :=
  { name := "arglDistortionCompensationGet"
    params := [("contextSettings", ARGL_CONTEXT_SETTINGS_REF), ("enable", CType.ptr CType.charTy)]
    ret := CType.charTy }

/-- `char arglSetPixelZoom(ARGL_CONTEXT_SETTINGS_REF contextSettings, float zoom);` -/
def arglSetPixelZoom : CFunDecl :=
  { name := "arglSetPixelZoom"
    params := [("contextSettings", ARGL_CONTEXT_SETTINGS_REF), ("zoom", CType.float)]
    ret := CType.charTy }

/-- `char arglGetPixelZoom(ARGL_CONTEXT_SETTINGS_REF contextSettings, float *zoom);` -/
def arglGetPixelZoom : CFunDecl :=
  { name := "arglGetPixelZoom"
    params := [("contextSettings", ARGL_CONTEXT_SETTINGS_REF), ("zoom", CType.ptr CType.float)]
    ret := CType.charTy }

/-- `char arglPixelFormatSet(ARGL_CONTEXT_SETTINGS_REF contextSettings, AR_PIXEL_FORMAT format);` -/
def arglPixelFormatSet : CFunDecl :=
  { name := "arglPixelFormatSet"
    params := [("contextSettings", ARGL_CONTEXT_SETTINGS_REF), ("format", CType.arPixelFormat)]
    ret := CType.charTy }

/-- `char arglPixelFormatGet(ARGL_CONTEXT_SETTINGS_REF contextSettings, AR_PIXEL_FORMAT *format, int *size);` -/
def arglPixelFormatGet : CFunDecl :=
  { name := "arglPixelFormatGet"
    params := [("contextSettings", ARGL_CONTEXT_SETTINGS_REF),
               ("format", CType.ptr CType.arPixelFormat), ("size", CType.ptr CType.int)]
    ret := CType.charTy }

/-- `char arglGetRotate90(ARGL_CONTEXT_SETTINGS_REF contextSettings);` -/
def arglGetRotate90 : CFunDecl :=
  { name := "arglGetRotate90"
    params := [("contextSettings", ARGL_CONTEXT_SETTINGS_REF)]
    ret := CType.charTy }

/-- `void arglSetRotate90(ARGL_CONTEXT_SETTINGS_REF contextSettings, char rotate90);` -/
def arglSetRotate90 : CFunDecl :=
  { name := "arglSetRotate90"
    params := [("contextSettings", ARGL_CONTEXT_SETTINGS_REF), ("rotate90", CType.charTy)]
    ret := CType.void }

/-- `char arglGetFlipH(ARGL_CONTEXT_SETTINGS_REF contextSettings);` -/
def arglGetFlipH : CFunDecl :=
  { name := "arglGetFlipH"
    params := [("contextSettings", ARGL_CONTEXT_SETTINGS_REF)]
    ret := CType.charTy }

/-- `void arglSetFlipH(ARGL_CONTEXT_SETTINGS_REF contextSettings, char flipH);` -/
def arglSetFlipH : CFunDecl :=
  { name := "arglSetFlipH"
    params := [("contextSettings", ARGL_CONTEXT_SETTINGS_REF), ("flipH", CType.charTy)]
    ret := CType.void }

/-- `char arglGetFlipV(ARGL_CONTEXT_SETTINGS_REF contextSettings);` -/
def arglGetFlipV : CFunDecl :=
  { name := "arglGetFlipV"
    params := [("contextSettings", ARGL_CONTEXT_SETTINGS_REF)]
    ret := CType.charTy }

/-- `void arglSetFlipV(ARGL_CONTEXT_SETTINGS_REF contextSettings, char flipV);` -/
def arglSetFlipV : CFunDecl :=
  { name := "arglSetFlipV"
    params := [("contextSettings", ARGL_CONTEXT_SETTINGS_REF), ("flipV", CType.charTy)]
    ret := CType.void }

/-- `char arglPixelBufferSizeSet(ARGL_CONTEXT_SETTINGS_REF contextSettings, int bufWidth, int bufHeight);` -/
def arglPixelBufferSizeSet : CFunDecl :=
  { name := "arglPixelBufferSizeSet"
    params := [("contextSettings", ARGL_CONTEXT_SETTINGS_REF),
               ("bufWidth", CType.int), ("bufHeight", CType.int)]
    ret := CType.charTy }

/-- `char arglPixelBufferSizeGet(ARGL_CONTEXT_SETTINGS_REF contextSettings, int *bufWidth, int *bufHeight);` -/
def arglPixelBufferSizeGet : CFunDecl :=
  { name := "arglPixelBufferSizeGet"
    params := [("contextSettings", ARGL_CONTEXT_SETTINGS_REF),
               ("bufWidth", CType.ptr CType.int), ("bufHeight", CType.ptr CType.int)]
    ret := CType.charTy }

/-- `char arglPixelBufferDataUploadBiPlanar(ARGL_CONTEXT_SETTINGS_REF contextSettings, ARUint8 *bufDataPtr0, ARUint8 *bufDataPtr1);` -/
def arglPixelBufferDataUploadBiPlanar : CFunDecl :=
  { name := "arglPixelBufferDataUploadBiPlanar"
    params := [("contextSettings", ARGL_CONTEXT_SETTINGS_REF),
               ("bufDataPtr0", CType.ptr CType.arUint8), ("bufDataPtr1", CType.ptr CType.arUint8)]
    ret := CType.charTy }

/-- `GLboolean arglGluCheckExtension(const GLubyte* extName, const GLubyte *extString);` -/
def arglGluCheckExtension : CFunDecl :=
  { name := "arglGluCheckExtension"
    params := [("extName", CType.constPtr CType.glubyte), ("extString", CType.constPtr CType.glubyte)]
    ret := CType.glboolean }

/-- `int arglGLCapabilityCheck(const unsigned short minVersion, const unsigned char *extension);` -/
def arglGLCapabilityCheck : CFunDecl :=
  { name := "arglGLCapabilityCheck"
    params := [("minVersion", CType.ushort), ("extension", CType.constPtr CType.uchar)]
    ret := CType.int }

end Decls

/-- A top-level item of a C header file.  `funDef`, `structDef` and
`globalVar` are forms of implementation logic or data-structure definition
that a C file could contain; gsub_es.h contains none of them, which is the
content of claims C5 and C6. -/
inductive TopLevelItem where
  | comment
  | includeDirective (path : String)
  | directive (text : String)
  | defineConst (name : String) (value : Int)
  | fnLikeDefine (name : String) (args : List String) (expandsTo : String)
  | typedefDecl (name : String) (underlying : CType)
  | cLinkageBegin
  | cLinkageEnd
  | funDecl (d : CFunDecl)
  | funDef (d : CFunDecl) (bodyStatements : Nat)
  | structDef (name : String) (fields : List (String × CType))
  | globalVar (name : String) (t : CType)
deriving DecidableEq, Repr

open TopLevelItem Decls in
/-- The top-level items of gsub_es.h, in file order (conditional-compilation
guards are kept as preprocessor directive items; every documentation block
is a `comment` item). -/
def gsubEsItems : List TopLevelItem :=
  [ comment,                                   -- licence and revision header
    comment,                                   -- @header gsub_es documentation
    directive "ifndef __gsub_es_h__",
    directive "define __gsub_es_h__",
    directive "if defined ANDROID",
    includeDirective "GLES/gl.h",
    includeDirective "GLES/glext.h",
    directive "else",
    includeDirective "OpenGLES/ES1/gl.h",
    includeDirective "OpenGLES/ES1/glext.h",
    directive "endif",
    includeDirective "AR/config.h",
    includeDirective "AR/ar.h",
    includeDirective "AR/param.h",
    includeDirective "glStateCache.h",
    directive "ifdef __cplusplus",
    cLinkageBegin,
    directive "endif",
    defineConst "ARGL_DISABLE_DISP_IMAGE" 0,
    directive "ifndef TRUE",
    defineConst "TRUE" 1,
    directive "endif",
    directive "ifndef FALSE",
    defineConst "FALSE" 0,
    directive "endif",
    directive "if !ARGL_DISABLE_DISP_IMAGE",
    comment,                                   -- @typedef ARGL_CONTEXT_SETTINGS_REF
    typedefDecl "ARGL_CONTEXT_SETTINGS_REF" (CType.ptr (CType.structType "_ARGL_CONTEXT_SETTINGS")),
    directive "endif",
    directive "if !ARGL_DISABLE_DISP_IMAGE",
    comment, funDecl arglSetupForCurrentContext,
    comment, funDecl arglCleanup,
    comment, funDecl arglDispImage,
    comment, funDecl arglDispImageStateful,
    comment, funDecl arglDistortionCompensationSet,
    comment, funDecl arglDistortionCompensationGet,
    comment, funDecl arglSetPixelZoom,
    comment, funDecl arglGetPixelZoom,
    comment, funDecl arglPixelFormatSet,
    comment, funDecl arglPixelFormatGet,
    comment, funDecl arglGetRotate90,
    comment, funDecl arglSetRotate90,
    funDecl arglGetFlipH,
    funDecl arglSetFlipH,
    funDecl arglGetFlipV,
    funDecl arglSetFlipV,
    comment, funDecl arglPixelBufferSizeSet,
    comment, funDecl arglPixelBufferSizeGet,
    comment, funDecl arglPixelBufferDataUploadBiPlanar,
    fnLikeDefine "arglPixelBufferDataUpload" ["contextSettings", "bufDataPtr"]
      "arglPixelBufferDataUploadBiPlanar(contextSettings,bufDataPtr,NULL)",
    directive "endif",
    comment, funDecl arglGluCheckExtension,
    comment, funDecl arglGLCapabilityCheck,
    directive "ifdef __cplusplus",
    cLinkageEnd,
    directive "endif",
    directive "endif" ]

/-- The function declarations of the file, in order. -/
def gsubEsDecls : List CFunDecl :=
  gsubEsItems.filterMap fun i =>
    match i with
    | TopLevelItem.funDecl d => some d
    | _ => none

/-- Names of function-like preprocessor definitions in a list of items. -/
def fnLikeDefineNames (items : List TopLevelItem) : List String :=
  items.filterMap fun i =>
    match i with
    | TopLevelItem.fnLikeDefine n _ _ => some n
    | _ => none

/-- Names of structs whose fields are defined in a list of items. -/
def definedStructNames (items : List TopLevelItem) : List String :=
  items.filterMap fun i =>
    match i with
    | TopLevelItem.structDef n _ => some n
    | _ => none

/-- An item is pure interface: a comment, include, preprocessor directive,
type or function declaration, or extern-C linkage bracket.  Function
definitions with bodies, struct definitions with fields, and global
variables are not. -/
def isInterfaceItem : TopLevelItem → Bool
  | TopLevelItem.comment => true
  | TopLevelItem.includeDirective _ => true
  | TopLevelItem.directive _ => true
  | TopLevelItem.defineConst _ _ => true
  | TopLevelItem.fnLikeDefine _ _ _ => true
  | TopLevelItem.typedefDecl _ _ => true
  | TopLevelItem.cLinkageBegin => true
  | TopLevelItem.cLinkageEnd => true
  | TopLevelItem.funDecl _ => true
  | TopLevelItem.funDef _ _ => false
  | TopLevelItem.structDef _ _ => false
  | TopLevelItem.globalVar _ _ => false

/-- The fallible operations of the interface, as enumerated by the spec's
error-handling section: context setup, the distortion-compensation,
pixel-zoom, pixel-format and pixel-buffer-size getters and setters, the
bi-planar pixel upload, and the two capability checks. -/
def fallibleOps : List CFunDecl :=
  [ Decls.arglSetupForCurrentContext,
    Decls.arglDistortionCompensationSet,
    Decls.arglDistortionCompensationGet,
    Decls.arglSetPixelZoom,
    Decls.arglGetPixelZoom,
    Decls.arglPixelFormatSet,
    Decls.arglPixelFormatGet,
    Decls.arglPixelBufferSizeSet,
    Decls.arglPixelBufferSizeGet,
    Decls.arglPixelBufferDataUploadBiPlanar,
    Decls.arglGluCheckExtension,
    Decls.arglGLCapabilityCheck ]

/-- A C type is a plain full-range scalar, enum or pointer type: every value
of the underlying machine representation is accepted, so the type rules out
no input statically.  Only `boundedInt` (unused in the header) restricts. -/
def isFullRange : CType → Bool
  | CType.void => true
  | CType.charTy => true
  | CType.int => true
  | CType.float => true
  | CType.ushort => true
  | CType.uchar => true
  | CType.glboolean => true
  | CType.glubyte => true
  | CType.arPixelFormat => true
  | CType.arUint8 => true
  | CType.arParam => true
  | CType.structType _ => true
  | CType.ptr _ => true
  | CType.constPtr _ => true
  | CType.boundedInt _ _ => false

/-- A return type that signals success or failure as a run-time value:
char, GLboolean (unsigned char) or int, used as TRUE (1) / FALSE (0),
or a pointer that is NULL on failure. -/
def isRuntimeFlagOrNullable : CType → Bool
  | CType.charTy => true
  | CType.glboolean => true
  | CType.int => true
  | CType.ptr _ => true
  | _ => false

namespace Model

/-- Modelled from the spec: the ARToolKit camera-parameter structure, as far
as the header's documentation describes it (image size fields xsize and
ysize, and the lens-distortion factor array dist_factor). -/
structure ARParam where
  xsize : Int
  ysize : Int
  dist_factor : List Int
deriving DecidableEq, Repr

/-- Modelled from the spec: the per-context settings structure
`struct _ARGL_CONTEXT_SETTINGS`, whose definition is not part of the
repository excerpt.  Its fields follow the per-context state the header's
documentation comments attribute to a context: a copy of the camera
parameters, the pixel format, the distortion-compensation enable flag,
the 90-degree-rotation, flip-horizontal and flip-vertical flags, the
pixel zoom, the expected pixel-buffer size, and the OpenGL texture that
holds the most recently uploaded camera image. -/
structure ContextSettings where
  cparam : ARParam
  pixelFormat : Nat
  distortionCompensation : Bool
  rotate90 : Bool
  flipH : Bool
  flipV : Bool
  zoom : Int
  bufWidth : Int
  bufHeight : Int
  texture : Nat
deriving DecidableEq, Repr

/-- A context handle: NULL (`none`) or a reference to settings. -/
abbrev ContextRef : Type := Option ContextSettings

/-- A pointer to pixel data: NULL (`none`) or a plane of bytes. -/
abbrev ARUint8Ptr : Type := Option (List Nat)

/-- Modelled from the spec: `arglSetupForCurrentContext` allocates fresh
settings for the current OpenGL context.  The header's documentation fixes
the defaults modelled here: distortion compensation is enabled ("The
default state for new contexts is enable = TRUE") and 90-degree rotation
is disabled ("By default, 90 degree rotation is DISABLED"); the pixel
buffer size defaults to the calibrated camera image size. -/
def arglSetupForCurrentContext (cparam : ARParam) (pixelFormat : Nat) : ContextRef :=
  some
    { cparam := cparam
      pixelFormat := pixelFormat
      distortionCompensation := true
      rotate90 := false
      flipH := false
      flipV := false
      zoom := 1
      bufWidth := cparam.xsize
      bufHeight := cparam.ysize
      texture := 0 }

/-- Modelled from the spec: `arglDistortionCompensationGet` writes the
enable state through its out-parameter and returns TRUE on success; on a
NULL context it fails.  The out-parameter write and the char result are
modelled together as an `Option Bool`: `none` is a FALSE result, and
`some b` is a TRUE result with `b` stored through the pointer. -/
def arglDistortionCompensationGet (contextSettings : ContextRef) : Option Bool :=
  match contextSettings with
  | none => none
  | some s => some s.distortionCompensation

/-- Modelled from the spec: `arglDistortionCompensationSet` updates the
enable flag and returns TRUE, or fails (FALSE) on a NULL context.  The
result pairs the updated handle with the char success flag. -/
def arglDistortionCompensationSet (contextSettings : ContextRef) (enable : Bool) :
    ContextRef × Bool :=
  match contextSettings with
  | none => (none, false)
  | some s => (some { s with distortionCompensation := enable }, true)

/-- Modelled from the spec: `arglGetRotate90` returns the current
90-degree-rotation state of the context (FALSE on a NULL context). -/
def arglGetRotate90 (contextSettings : ContextRef) : Bool :=
  match contextSettings with
  | none => false
  | some s => s.rotate90

/-- Modelled from the spec: `arglSetRotate90` sets the
90-degree-rotation flag of the context. -/
def arglSetRotate90 (contextSettings : ContextRef) (rotate90 : Bool) : ContextRef :=
  match contextSettings with
  | none => none
  | some s => some { s with rotate90 := rotate90 }

/-- The texture environment modes of OpenGL ES 1.1 relevant here. -/
inductive TexEnvMode where
  | replace
  | modulate
  | decal
deriving DecidableEq, Repr

/-- Modelled from the spec: the OpenGL state arglDispImage's documentation
speaks about: the depth-test and lighting enables, the texture environment
mode, whether an orthographic 2D projection is current, and abstract depth
and colour buffers. -/
structure GLState where
  depthTestEnabled : Bool
  lightingEnabled : Bool
  texEnvMode : TexEnvMode
  projectionOrtho2D : Bool
  depthBuffer : List Nat
  colorBuffer : List Nat
deriving DecidableEq, Repr

/-- Modelled from the spec: drawing the textured image quad writes the
colour buffer, and writes the depth buffer only when depth testing is
enabled ("Drawing is performed with depth testing and lighting disabled,
and thus leaves the the depth buffer (if any) unmodified"). -/
def drawImageQuad (texture : Nat) (s : GLState) : GLState :=
  { s with
    colorBuffer := texture :: s.colorBuffer
    depthBuffer := if s.depthTestEnabled then texture :: s.depthBuffer else s.depthBuffer }

/-- Modelled from the spec: the OpenGL state arglDispImage establishes
before drawing: an orthographic 2D projection, depth testing and lighting
disabled, and replacement texture environment mode. -/
def dispImageSetup (s : GLState) : GLState :=
  { s with
    projectionOrtho2D := true
    depthTestEnabled := false
    lightingEnabled := false
    texEnvMode := TexEnvMode.replace }

/-- Modelled from the spec: the restoration arglDispImage performs before
returning: the depth-test enable, the lighting enable and the texture
environment mode are put back to their values in the entry state. -/
def dispImageRestore (entry : GLState) (s : GLState) : GLState :=
  { s with
    depthTestEnabled := entry.depthTestEnabled
    lightingEnabled := entry.lightingEnabled
    texEnvMode := entry.texEnvMode }

/-- Modelled from the spec: `arglDispImage` sets an orthographic 2D
projection and the OpenGL state, draws the context's camera-image texture,
and restores the depth-test enable, lighting enable and texture
environment mode before returning. -/
def arglDispImage (contextSettings : ContextSettings) (s : GLState) : GLState :=
  dispImageRestore s (drawImageQuad contextSettings.texture (dispImageSetup s))

/-- Modelled from the spec: `arglDispImageStateful` is identical to
arglDispImage except that it neither sets the projection and OpenGL state
before drawing nor restores any OpenGL state changes: it just draws with
the current state. -/
def arglDispImageStateful (contextSettings : ContextSettings) (s : GLState) : GLState :=
  drawImageQuad contextSettings.texture s

/-- The single-plane pixel upload, embedded from the source macro
`#define arglPixelBufferDataUpload(contextSettings,bufDataPtr)
arglPixelBufferDataUploadBiPlanar(contextSettings,bufDataPtr,NULL)`:
whatever function the name arglPixelBufferDataUploadBiPlanar resolves to
at link time, the macro applies it to the same two arguments and NULL. -/
def arglPixelBufferDataUpload
    (arglPixelBufferDataUploadBiPlanar : ContextRef → ARUint8Ptr → ARUint8Ptr → Bool)
    (contextSettings : ContextRef) (bufDataPtr : ARUint8Ptr) : Bool :=
  arglPixelBufferDataUploadBiPlanar contextSettings bufDataPtr none

end Model

/-- A C type used as a primitive parameter: a scalar, enum or
byte/typedef-scalar type, or a pointer to one. -/
def isPrimitiveParamTy : CType → Bool
  | CType.charTy => true
  | CType.int => true
  | CType.float => true
  | CType.ushort => true
  | CType.uchar => true
  | CType.glboolean => true
  | CType.glubyte => true
  | CType.arPixelFormat => true
  | CType.arUint8 => true
  | CType.ptr t => isPrimitiveParamTy t
  | CType.constPtr t => isPrimitiveParamTy t
  | _ => false

/-- Claim C1 counterexample: not every fallible operation of the interface
is declared with return type char.  Context setup, which the claim itself
counts among the fallible operations, returns the handle type
ARGL_CONTEXT_SETTINGS_REF, and arglGLCapabilityCheck returns int. -/
theorem claim_C1_counterexample :
    Decls.arglSetupForCurrentContext ∈ fallibleOps
    ∧ Decls.arglSetupForCurrentContext.ret ≠ CType.charTy
    ∧ Decls.arglGLCapabilityCheck ∈ fallibleOps
    ∧ Decls.arglGLCapabilityCheck.ret = CType.int := by decide

/-- Claim C1 (amended): every fallible operation of the interface except
arglSetupForCurrentContext, arglGluCheckExtension and arglGLCapabilityCheck
is declared with return type char, used as a TRUE/FALSE success flag;
arglSetupForCurrentContext returns the ARGL_CONTEXT_SETTINGS_REF handle,
arglGluCheckExtension returns GLboolean and arglGLCapabilityCheck returns
int, and every fallible operation's return type signals failure as a
run-time value (a char/GLboolean/int flag or a nullable pointer). -/
theorem claim_C1 :
    (fallibleOps.all fun d =>
      d.ret == CType.charTy
        || d.name == "arglSetupForCurrentContext"
        || d.name == "arglGluCheckExtension"
        || d.name == "arglGLCapabilityCheck") = true
    ∧ Decls.arglSetupForCurrentContext.ret = ARGL_CONTEXT_SETTINGS_REF
    ∧ Decls.arglGluCheckExtension.ret = CType.glboolean
    ∧ Decls.arglGLCapabilityCheck.ret = CType.int
    ∧ (fallibleOps.all fun d => isRuntimeFlagOrNullable d.ret) = true := by decide

/-- Claim C2 counterexample: not every function declared in the header
takes an opaque context handle.  arglGluCheckExtension is declared in the
header and none of its parameters has type ARGL_CONTEXT_SETTINGS_REF. -/
theorem claim_C2_counterexample :
    Decls.arglGluCheckExtension ∈ gsubEsDecls
    ∧ (Decls.arglGluCheckExtension.params.any fun p =>
        p.2 == ARGL_CONTEXT_SETTINGS_REF) = false := by decide

/-- Claim C2 (amended): every function declared in the header, except
arglSetupForCurrentContext and the two capability checks
arglGluCheckExtension and arglGLCapabilityCheck, takes the opaque context
handle as its first parameter followed by primitive parameters and returns
char or void; arglSetupForCurrentContext takes a camera-parameter pointer
and a pixel format and returns the handle, and the two capability checks
take only primitive parameters and return the boolean-like integer types
GLboolean and int. -/
theorem claim_C2 :
    (gsubEsDecls.all fun d =>
      (d.name == "arglSetupForCurrentContext"
        || d.name == "arglGluCheckExtension"
        || d.name == "arglGLCapabilityCheck")
      || ((match d.params with
           | (_, t) :: rest =>
               t == ARGL_CONTEXT_SETTINGS_REF
                 && rest.all fun p => isPrimitiveParamTy p.2
           | [] => false)
          && (d.ret == CType.charTy || d.ret == CType.void))) = true
    ∧ Decls.arglSetupForCurrentContext.ret = ARGL_CONTEXT_SETTINGS_REF
    ∧ Decls.arglSetupForCurrentContext.params =
        [("cparam", CType.ptr CType.arParam), ("pixelFormat", CType.arPixelFormat)]
    ∧ (Decls.arglGluCheckExtension.params.all fun p => isPrimitiveParamTy p.2) = true
    ∧ Decls.arglGluCheckExtension.ret = CType.glboolean
    ∧ (Decls.arglGLCapabilityCheck.params.all fun p => isPrimitiveParamTy p.2) = true
    ∧ Decls.arglGLCapabilityCheck.ret = CType.int := by decide

/-- Claim C3: the header's public function surface is exactly the listed
operations and no others: context setup and cleanup, the two image-display
variants, distortion-compensation get and set, pixel-zoom get and set,
pixel-format get and set, rotation and horizontal/vertical flip get and
set, pixel-buffer-size get and set, the bi-planar pixel upload, and the
two capability checks; and arglPixelBufferDataUpload is the single
function-like preprocessor definition, giving the single-plane form. -/
theorem claim_C3 :
    gsubEsDecls.map CFunDecl.name =
      ["arglSetupForCurrentContext", "arglCleanup",
       "arglDispImage", "arglDispImageStateful",
       "arglDistortionCompensationSet", "arglDistortionCompensationGet",
       "arglSetPixelZoom", "arglGetPixelZoom",
       "arglPixelFormatSet", "arglPixelFormatGet",
       "arglGetRotate90", "arglSetRotate90",
       "arglGetFlipH", "arglSetFlipH", "arglGetFlipV", "arglSetFlipV",
       "arglPixelBufferSizeSet", "arglPixelBufferSizeGet",
       "arglPixelBufferDataUploadBiPlanar",
       "arglGluCheckExtension", "arglGLCapabilityCheck"]
    ∧ fnLikeDefineNames gsubEsItems = ["arglPixelBufferDataUpload"] := by decide

/-- Claim C4: failure is signalled only by a run-time return value; no
declared parameter type restricts inputs statically.  Every fallible
operation's return type is a run-time flag or nullable pointer, every
parameter type of every fallible operation is a full-range C type (no
statically range-restricted type appears), arglPixelBufferSizeSet takes
its buffer width and height as plain int, and every contextSettings
parameter in the header is the unconstrained ARGL_CONTEXT_SETTINGS_REF
pointer type. -/
theorem claim_C4 :
    Decls.arglPixelBufferSizeSet.params =
      [("contextSettings", ARGL_CONTEXT_SETTINGS_REF),
       ("bufWidth", CType.int), ("bufHeight", CType.int)]
    ∧ Decls.arglPixelBufferSizeSet.ret = CType.charTy
    ∧ Decls.arglDistortionCompensationSet.params =
        [("contextSettings", ARGL_CONTEXT_SETTINGS_REF), ("enable", CType.charTy)]
    ∧ (fallibleOps.all fun d => isRuntimeFlagOrNullable d.ret) = true
    ∧ (fallibleOps.all fun d => d.params.all fun p => isFullRange p.2) = true
    ∧ (gsubEsDecls.all fun d => d.params.all fun p =>
        p.1 != "contextSettings" || p.2 == ARGL_CONTEXT_SETTINGS_REF) = true := by decide

/-- Claim C5: the interface's only entity type is the opaque handle:
the file typedefs ARGL_CONTEXT_SETTINGS_REF as a pointer to struct
_ARGL_CONTEXT_SETTINGS, defines the fields of no struct anywhere, never
passes or returns the struct itself by value in any declaration (only the
opaque pointer), and every operation either takes the handle as a
parameter, returns it, or is one of the two context-free capability
checks. -/
theorem claim_C5 :
    TopLevelItem.typedefDecl "ARGL_CONTEXT_SETTINGS_REF"
        (CType.ptr (CType.structType "_ARGL_CONTEXT_SETTINGS")) ∈ gsubEsItems
    ∧ ARGL_CONTEXT_SETTINGS_REF = CType.ptr (CType.structType "_ARGL_CONTEXT_SETTINGS")
    ∧ definedStructNames gsubEsItems = []
    ∧ (gsubEsDecls.all fun d =>
        (d.ret != CType.structType "_ARGL_CONTEXT_SETTINGS")
          && d.params.all fun p =>
            p.2 != CType.structType "_ARGL_CONTEXT_SETTINGS") = true
    ∧ (gsubEsDecls.all fun d =>
        (d.params.any fun p => p.2 == ARGL_CONTEXT_SETTINGS_REF)
          || d.ret == ARGL_CONTEXT_SETTINGS_REF
          || d.name == "arglGluCheckExtension"
          || d.name == "arglGLCapabilityCheck") = true := by decide

/-- Claim C6: every top-level item of the file is pure interface — a
comment, an include, a preprocessor directive, a type or function
declaration, or an extern-C linkage bracket; no function body, struct
definition or global variable (no implementation logic, data structures or
control flow) appears. -/
theorem claim_C6 : (gsubEsItems.all isInterfaceItem) = true := by decide

/-- Claim C7: the single-plane upload is definitionally the bi-planar
upload applied to NULL as the second plane: for every implementation of
arglPixelBufferDataUploadBiPlanar, every context handle and every pixel
buffer pointer, the macro-defined arglPixelBufferDataUpload equals the
bi-planar upload with NULL (`none`) as third argument. -/
theorem claim_C7
    (f : Model.ContextRef → Model.ARUint8Ptr → Model.ARUint8Ptr → Bool)
    (contextSettings : Model.ContextRef) (bufDataPtr : Model.ARUint8Ptr) :
    Model.arglPixelBufferDataUpload f contextSettings bufDataPtr =
      f contextSettings bufDataPtr none := rfl

/-- Claim C8: for every context and every OpenGL state, arglDispImage
draws in a state with depth testing and lighting disabled, leaves the
depth buffer unmodified, and restores the depth-test enable, lighting
enable and texture environment mode before returning; and
arglDispImageStateful just draws with the current state, neither setting
up nor restoring any OpenGL state. -/
theorem claim_C8 (c : Model.ContextSettings) (s : Model.GLState) :
    (Model.dispImageSetup s).depthTestEnabled = false
    ∧ (Model.dispImageSetup s).lightingEnabled = false
    ∧ (Model.arglDispImage c s).depthBuffer = s.depthBuffer
    ∧ (Model.arglDispImage c s).depthTestEnabled = s.depthTestEnabled
    ∧ (Model.arglDispImage c s).lightingEnabled = s.lightingEnabled
    ∧ (Model.arglDispImage c s).texEnvMode = s.texEnvMode
    ∧ Model.arglDispImage c s =
        Model.dispImageRestore s (Model.drawImageQuad c.texture (Model.dispImageSetup s))
    ∧ Model.arglDispImageStateful c s = Model.drawImageQuad c.texture s :=
  ⟨rfl, rfl, rfl, rfl, rfl, rfl, rfl, rfl⟩

/-- Claim C9: for every camera parameter block and pixel format, the
context freshly returned by arglSetupForCurrentContext has distortion
compensation enabled (the getter yields TRUE) and 90-degree rotation
disabled (the getter yields FALSE), and these hold until the respective
setter changes them: after arglDistortionCompensationSet FALSE the getter
yields FALSE, and after arglSetRotate90 TRUE the getter yields TRUE. -/
theorem claim_C9 (cparam : Model.ARParam) (pixelFormat : Nat) :
    Model.arglDistortionCompensationGet
        (Model.arglSetupForCurrentContext cparam pixelFormat) = some true
    ∧ Model.arglGetRotate90 (Model.arglSetupForCurrentContext cparam pixelFormat) = false
    ∧ Model.arglDistortionCompensationGet
        (Model.arglDistortionCompensationSet
          (Model.arglSetupForCurrentContext cparam pixelFormat) false).1 = some false
    ∧ Model.arglGetRotate90
        (Model.arglSetRotate90
          (Model.arglSetupForCurrentContext cparam pixelFormat) true) = true :=
  ⟨rfl, rfl, rfl, rfl⟩

end GsubEs
